import Mathlib

/-!
Verification of the Leaxer desktop supervisor
(`apps/leaxer_desktop/src-tauri/src/main.rs`).

The program is a single-process supervisor: it resolves the user data
directory, reads an optional `config.json` flag, probes an ordered list
of candidate locations for the backend executable, builds a spawn
command (arguments, working directory, environment), launches the
backend, stores the child handle, and kills it on window close.

Shallow embedding conventions:
- filesystem paths are lists of components (`Path := List String`);
  `Path.parentDir` models Rust `Path::parent` (returns `none` on the
  empty path, otherwise drops the last component);
- every external effect the code consumes is an oracle field of a world
  structure: platform directory lookups, `Path::exists`,
  `fs::read_to_string`, `serde_json::from_str`, `Command::spawn`,
  `Child::kill`, the clock, and log-file opening;
- `Command` construction is modelled by a `Cmd` value built by the same
  sequence of operations as the source (`envSet` models `Command::env`,
  which overwrites an existing key and otherwise appends).
-/

namespace Leaxer

/-- A filesystem path, as its list of components. -/
abbrev Path := List String

/-- Model of Rust `Path::parent`: `none` for the empty path, otherwise
the path without its final component. -/
def Path.parentDir (p : Path) : Option Path :=
  if p.isEmpty then none else some p.dropLast

/-- Model of rendering a path to a string (`to_str`). -/
def pathStr (p : Path) : String := String.intercalate "/" p

/-- Model of a parsed `serde_json::Value`. -/
inductive Json where
  | null : Json
  | bool (b : Bool) : Json
  | num (n : Int) : Json
  | str (s : String) : Json
  | arr (elems : List Json) : Json
  | obj (fields : List (String × Json)) : Json

/-- Model of `serde_json::Value::get(key)`: a field lookup on an object,
`none` on any other value. -/
def Json.get (j : Json) (key : String) : Option Json :=
  match j with
  | .obj fields => (fields.find? (fun kv => kv.1 == key)).map (fun kv => kv.2)
  | _ => none

/-- Model of `serde_json::Value::as_bool`. -/
def Json.as_bool : Json → Option Bool
  | .bool b => some b
  | _ => none

/-- The three compilation targets of the source. -/
inductive Platform where
  | windows : Platform
  | macos : Platform
  | linux : Platform
deriving DecidableEq

/-- The platform-dependent relative path of the backend launcher
(`leaxer_core/bin/leaxer_core.bat` on Windows, no extension elsewhere). -/
def backendFilename (p : Platform) : Path :=
  match p with
  | .windows => ["leaxer_core", "bin", "leaxer_core.bat"]
  | .macos => ["leaxer_core", "bin", "leaxer_core"]
  | .linux => ["leaxer_core", "bin", "leaxer_core"]

/-- Results of the platform directory lookups (`dirs::document_dir`,
`dirs::data_dir`). -/
structure PlatformDirs where
  document_dir : Option Path
  data_dir : Option Path

/-- Model of `get_leaxer_user_dir`: documents directory on Windows and
macOS, data directory on Linux, each joined with `Leaxer`. -/
def get_leaxer_user_dir (plat : Platform) (dirs : PlatformDirs) : Option Path :=
  match plat with
  | .windows => dirs.document_dir.map (fun p => p ++ ["Leaxer"])
  | .macos => dirs.document_dir.map (fun p => p ++ ["Leaxer"])
  | .linux => dirs.data_dir.map (fun p => p ++ ["Leaxer"])

/-- The constructed spawn command (`std::process::Command`), the
SpawnSpec of the specification. -/
structure Cmd where
  program : Path
  args : List String
  creation_flags : Option Nat
  current_dir : Option Path
  env : List (String × String)

/-- Model of `Command::env`: overwrite the value if the key is present,
otherwise append the pair. -/
def envSet (e : List (String × String)) (k v : String) : List (String × String) :=
  if e.any (fun kv => kv.1 == k) then
    e.map (fun kv => if kv.1 == k then (k, v) else kv)
  else e ++ [(k, v)]

/-- The external world consumed by `main`'s setup closure: platform,
directory lookups, resource directory, current executable path, file
existence, config file read, JSON parsing, spawn outcome, kill outcome. -/
structure SetupWorld where
  plat : Platform
  dirs : PlatformDirs
  resource_dir : Option Path
  exe_path : Option Path
  fs_exists : Path → Bool
  config_read : Path → Option String
  json_parse : String → Option Json
  spawn : Cmd → Except String Nat

/-- Model of `is_network_exposure_enabled`: resolve the user directory
(else `false`), read `config.json` (else `false`), parse it as JSON
(else `false`), then take the flag `network_exposure_enabled` if it is
present with boolean type, defaulting to `false`. -/
def is_network_exposure_enabled (w : SetupWorld) : Bool :=
  match get_leaxer_user_dir w.plat w.dirs with
  | none => false
  | some dir =>
    match w.config_read (dir ++ ["config.json"]) with
    | none => false
    | some content =>
      match w.json_parse content with
      | none => false
      | some config =>
        ((config.get "network_exposure_enabled").bind Json.as_bool).getD false

/-- Model of the `backend_exe` candidate chain: bundled resource
directory, then the `resources` folder next to the executable, then the
executable's own directory, each joined with the backend relative path
and filtered by existence; the first hit wins (`Option.or` is
left-biased like Rust `Option::or_else`). -/
def backend_exe (resource_dir exe_dir : Option Path) (fname : Path)
    (ex : Path → Bool) : Option Path :=
  ((resource_dir.map (fun p => p ++ fname)).filter ex).or
    ((((exe_dir.map (fun p => p ++ ["resources"] ++ fname)).filter ex)).or
      ((exe_dir.map (fun p => p ++ fname)).filter ex))

/-- The candidate list probed by `backend_exe`, in source order. -/
def candidate_paths (resource_dir exe_dir : Option Path) (fname : Path) :
    List Path :=
  (resource_dir.map (fun p => p ++ fname)).toList
    ++ (exe_dir.map (fun p => p ++ ["resources"] ++ fname)).toList
    ++ (exe_dir.map (fun p => p ++ fname)).toList

/-- The executable's directory: `current_exe().ok().and_then(parent)`. -/
def exeDir (w : SetupWorld) : Option Path := w.exe_path.bind Path.parentDir

/-- The located backend executable, as computed in setup. -/
def locate (w : SetupWorld) : Option Path :=
  backend_exe w.resource_dir (exeDir w) (backendFilename w.plat) w.fs_exists

/-- Base environment installed by the five unconditional `cmd.env`
calls, in source order, starting from the empty environment. -/
def baseEnv : List (String × String) :=
  envSet (envSet (envSet (envSet (envSet []
    "PHX_SERVER" "true")
    "PHX_HOST" "localhost")
    "SECRET_KEY_BASE" "leaxer_desktop_secret_key_base_that_is_at_least_64_bytes_long_for_security")
    "SIGNING_SALT" "leaxer_desktop_signing_salt")
    "CORS_ORIGINS" "http://localhost:4000,http://127.0.0.1:4000,https://tauri.localhost,tauri://localhost"

/-- Model of the command construction for a located backend: platform
branch (Windows wraps through `cmd /C` with the no-window creation
flag; others invoke the executable directly with argument `start`),
working directory set to `release_root` (parent of parent of the
executable) when it exists, the five fixed environment variables, and
the bind-all-interfaces variable when network exposure is enabled. -/
def build_cmd (plat : Platform) (bexe : Path) (network_enabled : Bool) : Cmd :=
  let release_root := (Path.parentDir bexe).bind Path.parentDir
  let base : Cmd :=
    match plat with
    | .windows =>
      { program := ["cmd"]
        args := ["/C", pathStr bexe, "start"]
        creation_flags := some 0x08000000
        current_dir := release_root
        env := [] }
    | _ =>
      { program := bexe
        args := ["start"]
        creation_flags := none
        current_dir := release_root
        env := [] }
  let withBase := { base with env := baseEnv }
  if network_enabled then
    { withBase with
      env := envSet withBase.env "LEAXER_BIND_ALL_INTERFACES" "true" }
  else withBase

/-- The argument vector actually delivered to the backend executable:
on Windows the command line is `cmd /C <exe> start`, so the backend
receives everything after the executable path; elsewhere the argument
list is passed directly. -/
def backend_argv (plat : Platform) (c : Cmd) : List String :=
  match plat with
  | .windows => c.args.drop 2
  | _ => c.args

/-- The mutex-guarded supervisor state: an optional child handle
(modelled by its process id). -/
structure BackendState where
  child : Option Nat

/-- Result of running the setup closure: final supervisor state, the
messages passed to `log_to_file` in order, and whether setup returned
`Ok(())`. -/
structure SetupResult where
  state : BackendState
  logs : List String
  ok : Bool

/-- Model of the setup closure: locate the backend; if found, build the
command, check the network flag, spawn, and store the child handle on
success; otherwise record the dev-mode diagnostic. Setup always
returns `Ok(())`. -/
def run_setup (w : SetupWorld) (st : BackendState) : SetupResult :=
  let logs0 := ["[Leaxer] Looking for backend..."]
  match locate w with
  | some bexe =>
    let network_enabled := is_network_exposure_enabled w
    let cmd := build_cmd w.plat bexe network_enabled
    let logs1 := logs0
      ++ ["[Leaxer] Found backend at: " ++ pathStr bexe]
      ++ (if network_enabled then
            ["[Leaxer] Network exposure enabled, binding to all interfaces"]
          else [])
      ++ ["[Leaxer] Spawning command..."]
    match w.spawn cmd with
    | .ok pid =>
      { state := { st with child := some pid }
        logs := logs1 ++ ["[Leaxer] Backend started with PID: " ++ toString pid]
        ok := true }
    | .error e =>
      { state := st
        logs := logs1 ++ ["[Leaxer] Failed to start backend: " ++ e]
        ok := true }
  | none =>
    { state := st
      logs := logs0
        ++ ["[Leaxer] Backend not found, running in dev mode (connect to localhost:4000)"]
      ok := true }

/-- Result of the window-close handler: final state, the list of child
handles a kill signal was sent to, and whether the auxiliary `taskkill`
of `epmd.exe` was issued (Windows only). -/
structure ShutdownResult where
  state : BackendState
  killed : List Nat
  aux_epmd_kill : Bool

/-- Model of the `CloseRequested` handler: if a child handle is held,
send it a kill signal (result ignored), then clear the handle
unconditionally; on Windows additionally fire-and-forget a `taskkill`
of `epmd.exe`. `kill_ok` is the outcome of `Child::kill`, which the
source discards (`let _ = child.kill()`). -/
def on_close (plat : Platform) (kill_ok : Nat → Bool) (st : BackendState) :
    ShutdownResult :=
  let killed := match st.child with
    | some pid => [pid]
    | none => []
  { state := { child := none }
    killed := killed
    aux_epmd_kill := plat == Platform.windows }

/-- Number of live backend handles in a state. -/
def handleCount (st : BackendState) : Nat := st.child.toList.length

/-- External inputs of `log_to_file`: the resolved user directory, the
clock (`duration_since(UNIX_EPOCH)`, `none` on error), whether opening
the log file succeeds, and whether the write succeeds (the source
ignores this result). -/
structure LogWorld where
  user_dir : Option Path
  now_secs : Option Nat
  open_ok : Bool
  write_ok : Bool

/-- Observable filesystem effect of one `log_to_file` call: the
directory `create_dir_all` was invoked on (if any) and the line
appended to the log file (if any). -/
structure LogEffect where
  created_dir : Option Path
  appended : Option (Path × String)

/-- Model of `log_to_file`: if the user directory is unresolved, do
nothing; otherwise create the directory (result ignored), open
`startup.log` for create-append, and on success append one line
`[<unix-seconds>] <message>`, with the timestamp defaulting to `0` on
clock error and the write result ignored. -/
def log_to_file (w : LogWorld) (msg : String) : LogEffect :=
  match w.user_dir with
  | none => { created_dir := none, appended := none }
  | some dir =>
    let timestamp := w.now_secs.getD 0
    let line := "[" ++ toString timestamp ++ "] " ++ msg
    { created_dir := some dir
      appended :=
        if w.open_ok then some (dir ++ ["startup.log"], line) else none }

/-! Helper lemmas shared by the claim theorems. -/

lemma dropLast_append_right (l m : List String) (h : m ≠ []) :
    (l ++ m).dropLast = l ++ m.dropLast := by
  induction l with
  | nil => rfl
  | cons a t ih =>
    cases ht : t ++ m with
    | nil => exact absurd (List.append_eq_nil.mp ht).2 h
    | cons b u =>
      calc ((a :: t) ++ m).dropLast
          = (a :: (b :: u)).dropLast := by rw [List.cons_append, ht]
        _ = a :: (b :: u).dropLast := List.dropLast_cons₂
        _ = a :: (t ++ m).dropLast := by rw [ht]
        _ = (a :: t) ++ m.dropLast := by rw [ih, List.cons_append]

lemma parentDir_append (l m : List String) (h : m ≠ []) :
    Path.parentDir (l ++ m) = some (l ++ m.dropLast) := by
  unfold Path.parentDir
  rw [if_neg, dropLast_append_right l m h]
  simp [List.isEmpty_iff, h]

lemma find?_append_or (l1 l2 : List Path) (ex : Path → Bool) :
    (l1 ++ l2).find? ex = (l1.find? ex).or (l2.find? ex) := by
  induction l1 with
  | nil => rfl
  | cons a t ih =>
    cases h : ex a with
    | true => simp [List.find?_cons, h]
    | false => simp [List.find?_cons, h, ih]

lemma find?_toList (o : Option Path) (ex : Path → Bool) :
    o.toList.find? ex = o.filter ex := by
  cases o with
  | none => rfl
  | some a => cases h : ex a <;> simp [List.find?_cons, h, Option.filter]

lemma backend_exe_eq_find (r e : Option Path) (f : Path) (ex : Path → Bool) :
    backend_exe r e f ex = (candidate_paths r e f).find? ex := by
  unfold backend_exe candidate_paths
  rw [List.append_assoc, find?_append_or, find?_append_or,
    find?_toList, find?_toList, find?_toList]

lemma grandparent_append (ed : Path) (a b c d : String) :
    (Path.parentDir (ed ++ [a, b, c, d])).bind Path.parentDir
      = some (ed ++ [a, b]) := by
  have h1 : Path.parentDir (ed ++ [a, b, c, d]) = some (ed ++ [a, b, c]) := by
    rw [parentDir_append ed [a, b, c, d] (by simp)]
    rfl
  have h2 : Path.parentDir (ed ++ [a, b, c]) = some (ed ++ [a, b]) := by
    rw [parentDir_append ed [a, b, c] (by simp)]
    rfl
  rw [h1]
  exact h2

lemma run_setup_spawn_ok_state (w : SetupWorld) (st : BackendState)
    (bexe : Path) (pid : Nat) (hloc : locate w = some bexe)
    (hspawn : w.spawn (build_cmd w.plat bexe (is_network_exposure_enabled w))
      = Except.ok pid) :
    (run_setup w st).state = { st with child := some pid } := by
  unfold run_setup
  simp [hloc, hspawn]

lemma run_setup_spawn_err_facts (w : SetupWorld) (st : BackendState)
    (bexe : Path) (e : String) (hloc : locate w = some bexe)
    (hspawn : w.spawn (build_cmd w.plat bexe (is_network_exposure_enabled w))
      = Except.error e) :
    (run_setup w st).state = st ∧
    ("[Leaxer] Failed to start backend: " ++ e) ∈ (run_setup w st).logs := by
  unfold run_setup
  simp [hloc, hspawn]

lemma run_setup_none_facts (w : SetupWorld) (st : BackendState)
    (hloc : locate w = none) :
    run_setup w st =
      { state := st
        logs := ["[Leaxer] Looking for backend...",
          "[Leaxer] Backend not found, running in dev mode (connect to localhost:4000)"]
        ok := true } := by
  unfold run_setup
  simp [hloc]

lemma run_setup_ok_always (w : SetupWorld) (st : BackendState) :
    (run_setup w st).ok = true := by
  unfold run_setup
  cases hloc : locate w with
  | none => simp [hloc]
  | some bexe =>
    cases hs : w.spawn (build_cmd w.plat bexe (is_network_exposure_enabled w)) with
    | ok pid => simp [hloc, hs]
    | error e => simp [hloc, hs]

/-! Claim theorems. -/

/-- C1: for every world — user directory unresolved, config file
missing or unreadable, content that fails to parse, flag missing or
non-boolean — `is_network_exposure_enabled` returns `false` (and, being
a total Lean function, never raises); it returns `true` exactly when
the directory resolves, the file reads, the content parses as JSON, and
the flag `network_exposure_enabled` is present with boolean value
`true`. -/
theorem config_reader_fail_open (w : SetupWorld) :
    is_network_exposure_enabled w = true ↔
      ∃ dir content config,
        get_leaxer_user_dir w.plat w.dirs = some dir ∧
        w.config_read (dir ++ ["config.json"]) = some content ∧
        w.json_parse content = some config ∧
        (config.get "network_exposure_enabled").bind Json.as_bool = some true := by
  unfold is_network_exposure_enabled
  cases hd : get_leaxer_user_dir w.plat w.dirs with
  | none => simp [hd]
  | some dir =>
    cases hc : w.config_read (dir ++ ["config.json"]) with
    | none => simp [hd, hc]
    | some content =>
      cases hp : w.json_parse content with
      | none => simp [hd, hc, hp]
      | some config =>
        cases hb : (config.get "network_exposure_enabled").bind Json.as_bool with
        | none => simp [hd, hc, hp, hb]
        | some b => cases b <;> simp [hd, hc, hp, hb]

/-- C2: the locator returns the first existing candidate in the fixed
order bundled-resource, executable-adjacent `resources`, executable
directory; the bundled candidate wins whenever it exists, and the
result is absent when no candidate exists. -/
theorem backend_locator_first_existing (r e : Option Path) (f : Path)
    (ex : Path → Bool) :
    backend_exe r e f ex = (candidate_paths r e f).find? ex ∧
    (∀ p, r = some p → ex (p ++ f) = true →
      backend_exe r e f ex = some (p ++ f)) ∧
    ((∀ c ∈ candidate_paths r e f, ex c = false) →
      backend_exe r e f ex = none) := by
  refine ⟨backend_exe_eq_find r e f ex, ?_, ?_⟩
  · intro p hr hex
    subst hr
    simp [backend_exe, Option.filter, hex, Option.or]
  · intro hall
    rw [backend_exe_eq_find r e f ex]
    exact List.find?_eq_none.mpr fun c hc => by simp [hall c hc]

/-- Witness for C2 at concrete inputs: with the bundled candidate
present the locator returns it, and with no candidate present it
returns none. -/
theorem backend_locator_first_existing_witness :
    backend_exe (some ["R"]) (some ["E"]) ["b"]
      (fun p => p == ["R", "b"]) = some (["R"] ++ ["b"]) ∧
    backend_exe (some ["R"]) (some ["E"]) ["b"]
      (fun _ => false) = none :=
  ⟨(backend_locator_first_existing (some ["R"]) (some ["E"]) ["b"]
      (fun p => p == ["R", "b"])).2.1 ["R"] rfl (by decide),
   (backend_locator_first_existing (some ["R"]) (some ["E"]) ["b"]
      (fun _ => false)).2.2 (fun c _ => rfl)⟩

/-- C3: with network policy true the constructed command's environment
binds `LEAXER_BIND_ALL_INTERFACES` to the truthy string `true`; with
network policy false that variable is absent, on every platform. -/
theorem network_policy_env_var (plat : Platform) (bexe : Path) :
    (build_cmd plat bexe true).env.lookup "LEAXER_BIND_ALL_INTERFACES"
      = some "true" ∧
    (build_cmd plat bexe false).env.lookup "LEAXER_BIND_ALL_INTERFACES"
      = none := by
  cases plat <;> exact ⟨rfl, rfl⟩

/-- C4: on every platform and for either network policy, the backend
receives the single argument `start`, and the environment is exactly
the five fixed variables — `PHX_SERVER`, `PHX_HOST`,
`SECRET_KEY_BASE`, `SIGNING_SALT`, `CORS_ORIGINS` — with their exact
values, plus only the conditional bind-all variable. -/
theorem spawn_env_and_arg_contract (plat : Platform) (bexe : Path) (b : Bool) :
    backend_argv plat (build_cmd plat bexe b) = ["start"] ∧
    (build_cmd plat bexe b).env =
      [("PHX_SERVER", "true"),
       ("PHX_HOST", "localhost"),
       ("SECRET_KEY_BASE",
        "leaxer_desktop_secret_key_base_that_is_at_least_64_bytes_long_for_security"),
       ("SIGNING_SALT", "leaxer_desktop_signing_salt"),
       ("CORS_ORIGINS",
        "http://localhost:4000,http://127.0.0.1:4000,https://tauri.localhost,tauri://localhost")]
      ++ (if b then [("LEAXER_BIND_ALL_INTERFACES", "true")] else []) := by
  cases plat <;> cases b <;> exact ⟨rfl, rfl⟩

/-- A concrete world in which the backend is found in the bundled
resource directory and the spawn succeeds with pid 42, used to
instantiate hypothesised theorems. -/
def cwOk : SetupWorld :=
  { plat := Platform.linux
    dirs := { document_dir := none, data_dir := none }
    resource_dir := some ["R"]
    exe_path := some ["E", "app"]
    fs_exists := fun _ => true
    config_read := fun _ => none
    json_parse := fun _ => none
    spawn := fun _ => Except.ok 42 }

/-- C5: when the locator finds the backend and the spawn succeeds,
setup stores exactly one handle (the spawned pid); the state can never
hold more than one handle; and after the close handler runs, the
handle is absent whatever the kill outcome was. -/
theorem single_backend_handle (w : SetupWorld) (bexe : Path) (pid : Nat)
    (hloc : locate w = some bexe)
    (hspawn : w.spawn (build_cmd w.plat bexe (is_network_exposure_enabled w))
      = Except.ok pid) :
    (run_setup w { child := none }).state.child = some pid ∧
    handleCount (run_setup w { child := none }).state = 1 ∧
    (∀ st : BackendState, handleCount st ≤ 1) ∧
    ∀ (plat : Platform) (ko : Nat → Bool) (st : BackendState),
      (on_close plat ko st).state.child = none := by
  have hs := run_setup_spawn_ok_state w { child := none } bexe pid hloc hspawn
  refine ⟨by rw [hs], by rw [hs]; rfl, ?_, ?_⟩
  · intro st
    cases st with
    | mk c => cases c <;> simp [handleCount]
  · intro plat ko st
    rfl

/-- Witness for C5: in the concrete world `cwOk` the spawned handle 42
is stored and counted exactly once. -/
theorem single_backend_handle_witness :
    (run_setup cwOk { child := none }).state.child = some 42 ∧
    handleCount (run_setup cwOk { child := none }).state = 1 :=
  ⟨(single_backend_handle cwOk ["R", "leaxer_core", "bin", "leaxer_core"]
      42 rfl rfl).1,
   (single_backend_handle cwOk ["R", "leaxer_core", "bin", "leaxer_core"]
      42 rfl rfl).2.1⟩

/-- C6: running the close handler twice leaves the handle absent, sends
no kill signal on the second run (the state result is total, so no
panic occurs), and the second run leaves the state exactly where the
first left it. -/
theorem shutdown_idempotent (plat : Platform) (ko : Nat → Bool)
    (st : BackendState) :
    (on_close plat ko (on_close plat ko st).state).state.child = none ∧
    (on_close plat ko (on_close plat ko st).state).killed = [] ∧
    (on_close plat ko (on_close plat ko st).state).state
      = (on_close plat ko st).state :=
  ⟨rfl, rfl, rfl⟩

/-- C7: on every platform the working directory of the constructed
command is the parent-of-parent of the located executable when that is
determinable (`none` otherwise); for a backend located under the
exe-adjacent `resources` directory it equals that grandparent
concretely. -/
theorem working_dir_is_grandparent (plat : Platform) (bexe : Path) (b : Bool)
    (ed : Path) :
    (build_cmd plat bexe b).current_dir
      = (Path.parentDir bexe).bind Path.parentDir ∧
    (build_cmd plat (ed ++ ["resources"] ++ backendFilename plat) b).current_dir
      = some (ed ++ ["resources", "leaxer_core"]) := by
  constructor
  · cases plat <;> cases b <;> rfl
  · have h1 : (build_cmd plat (ed ++ ["resources"] ++ backendFilename plat) b).current_dir
        = (Path.parentDir (ed ++ ["resources"] ++ backendFilename plat)).bind
            Path.parentDir := by
      cases plat <;> cases b <;> rfl
    rw [h1]
    cases plat <;>
      · rw [List.append_assoc]
        exact grandparent_append ed "resources" "leaxer_core" "bin" _

/-- A concrete world in which the user directory is unresolved while
the backend exists in the bundled resource directory. -/
def cwNoDir : SetupWorld :=
  { plat := Platform.linux
    dirs := { document_dir := none, data_dir := none }
    resource_dir := some ["R"]
    exe_path := some ["E", "app"]
    fs_exists := fun p => p == ["R", "leaxer_core", "bin", "leaxer_core"]
    config_read := fun _ => none
    json_parse := fun _ => none
    spawn := fun _ => Except.error "e" }

/-- Counterexample to C8 as stated: with the user directory unresolved,
the locator still probes — and here returns — the bundled-resource
candidate, which is not among the exe-adjacent candidates, so the
bundled candidate is not skipped. -/
theorem user_dir_unresolved_cex :
    get_leaxer_user_dir cwNoDir.plat cwNoDir.dirs = none ∧
    is_network_exposure_enabled cwNoDir = false ∧
    locate cwNoDir = some ["R", "leaxer_core", "bin", "leaxer_core"] ∧
    (["R", "leaxer_core", "bin", "leaxer_core"] : Path) ∉
      ((exeDir cwNoDir).map
        (fun p => p ++ ["resources"] ++ backendFilename cwNoDir.plat)).toList
      ++ ((exeDir cwNoDir).map
        (fun p => p ++ backendFilename cwNoDir.plat)).toList := by
  refine ⟨rfl, rfl, rfl, ?_⟩
  decide

/-- C8 amended: when the user directory is unresolved, ConfigReader
returns false; the locator is unaffected by the user directory — its
candidates derive only from the resource directory and the executable
directory, and the first existing one in priority order is returned; if
no candidate exists, setup records the backend-not-found diagnostic and
completes with `Ok` (and, the user directory being unresolved, the file
logger writes nothing anywhere for that message). -/
theorem user_dir_unresolved_amended (w : SetupWorld) (st : BackendState)
    (hdir : get_leaxer_user_dir w.plat w.dirs = none) :
    is_network_exposure_enabled w = false ∧
    locate w = (candidate_paths w.resource_dir (exeDir w)
      (backendFilename w.plat)).find? w.fs_exists ∧
    ((∀ c ∈ candidate_paths w.resource_dir (exeDir w) (backendFilename w.plat),
        w.fs_exists c = false) →
      run_setup w st =
        { state := st
          logs := ["[Leaxer] Looking for backend...",
            "[Leaxer] Backend not found, running in dev mode (connect to localhost:4000)"]
          ok := true } ∧
      ∀ lw : LogWorld, lw.user_dir = none →
        log_to_file lw
          "[Leaxer] Backend not found, running in dev mode (connect to localhost:4000)"
          = { created_dir := none, appended := none }) := by
  refine ⟨by simp [is_network_exposure_enabled, hdir], ?_, ?_⟩
  · exact backend_exe_eq_find w.resource_dir (exeDir w) (backendFilename w.plat)
      w.fs_exists
  · intro hall
    have hnone : locate w = none := by
      unfold locate
      rw [backend_exe_eq_find]
      exact List.find?_eq_none.mpr fun c hc => by simp [hall c hc]
    exact ⟨run_setup_none_facts w st hnone,
      fun lw hlw => by simp [log_to_file, hlw]⟩

/-- A concrete world in which the user directory is unresolved and no
backend candidate exists anywhere. -/
def cwNone : SetupWorld :=
  { plat := Platform.linux
    dirs := { document_dir := none, data_dir := none }
    resource_dir := none
    exe_path := none
    fs_exists := fun _ => false
    config_read := fun _ => none
    json_parse := fun _ => none
    spawn := fun _ => Except.error "e" }

/-- Witness for the amended C8 at a concrete world with no backend:
the network flag is false and setup ends with no handle, the two
generic diagnostics, and `Ok`. -/
theorem user_dir_unresolved_amended_witness :
    is_network_exposure_enabled cwNone = false ∧
    run_setup cwNone { child := none } =
      { state := { child := none }
        logs := ["[Leaxer] Looking for backend...",
          "[Leaxer] Backend not found, running in dev mode (connect to localhost:4000)"]
        ok := true } :=
  ⟨(user_dir_unresolved_amended cwNone { child := none } rfl).1,
   ((user_dir_unresolved_amended cwNone { child := none } rfl).2.2
     (fun _ _ => rfl)).1⟩

/-- A concrete world whose config file reads successfully but fails to
parse, and in which no backend candidate exists. -/
def cwSilent : SetupWorld :=
  { plat := Platform.linux
    dirs := { document_dir := none, data_dir := some ["home"] }
    resource_dir := none
    exe_path := none
    fs_exists := fun _ => false
    config_read := fun _ => some "oops"
    json_parse := fun _ => none
    spawn := fun _ => Except.error "e" }

/-- Counterexample to C9 as stated: in `cwSilent` the config file is
malformed (it reads as `oops`, which fails to parse), the condition is
downgraded to the safe default false — but the setup log consists of
exactly the two generic backend-lookup lines, so no diagnostic for
ConfigUnreadableOrMalformed is logged anywhere, contradicting the
claim that every one of the five conditions yields a logged
diagnostic. -/
theorem error_taxonomy_cex :
    cwSilent.config_read (["home", "Leaxer"] ++ ["config.json"]) = some "oops" ∧
    cwSilent.json_parse "oops" = none ∧
    is_network_exposure_enabled cwSilent = false ∧
    (run_setup cwSilent { child := none }).logs =
      ["[Leaxer] Looking for backend...",
       "[Leaxer] Backend not found, running in dev mode (connect to localhost:4000)"] :=
  ⟨rfl, rfl, rfl, rfl⟩

/-- C9 amended: all five error conditions are handled locally with a
safe default or continuation and none aborts startup or shutdown, but
only BackendNotFound and SpawnFailed produce a logged diagnostic;
DirectoryUnresolved, ConfigUnreadableOrMalformed and TerminateFailed
degrade silently. -/
theorem error_taxonomy_amended (w : SetupWorld) (st : BackendState) :
    (run_setup w st).ok = true ∧
    (get_leaxer_user_dir w.plat w.dirs = none →
      is_network_exposure_enabled w = false) ∧
    (∀ dir, get_leaxer_user_dir w.plat w.dirs = some dir →
      w.config_read (dir ++ ["config.json"]) = none →
      is_network_exposure_enabled w = false) ∧
    (∀ dir content, get_leaxer_user_dir w.plat w.dirs = some dir →
      w.config_read (dir ++ ["config.json"]) = some content →
      w.json_parse content = none →
      is_network_exposure_enabled w = false) ∧
    (locate w = none →
      (run_setup w st).state = st ∧
      "[Leaxer] Backend not found, running in dev mode (connect to localhost:4000)"
        ∈ (run_setup w st).logs) ∧
    (∀ bexe e, locate w = some bexe →
      w.spawn (build_cmd w.plat bexe (is_network_exposure_enabled w))
        = Except.error e →
      (run_setup w st).state = st ∧
      ("[Leaxer] Failed to start backend: " ++ e) ∈ (run_setup w st).logs) ∧
    ∀ (plat : Platform) (ko : Nat → Bool) (s : BackendState),
      (on_close plat ko s).state.child = none := by
  refine ⟨run_setup_ok_always w st, ?_, ?_, ?_, ?_, ?_, fun _ _ _ => rfl⟩
  · intro h
    simp [is_network_exposure_enabled, h]
  · intro dir h hc
    simp [is_network_exposure_enabled, h, hc]
  · intro dir content h hc hp
    simp [is_network_exposure_enabled, h, hc, hp]
  · intro hloc
    rw [run_setup_none_facts w st hloc]
    exact ⟨rfl, by simp⟩
  · intro bexe e hloc hspawn
    exact run_setup_spawn_err_facts w st bexe e hloc hspawn

/-- Witness for the amended C9 at concrete worlds: setup completes with
`Ok` and the malformed config degrades to false. -/
theorem error_taxonomy_amended_witness :
    (run_setup cwSilent { child := none }).ok = true ∧
    is_network_exposure_enabled cwSilent = false ∧
    (run_setup cwSilent { child := none }).state = { child := none } :=
  ⟨(error_taxonomy_amended cwSilent { child := none }).1,
   (error_taxonomy_amended cwSilent { child := none }).2.2.2.1
     ["home", "Leaxer"] "oops" rfl rfl rfl,
   ((error_taxonomy_amended cwSilent { child := none }).2.2.2.2.1 rfl).1⟩

/-- C10: when the user directory is unresolved, `log_to_file` writes
nothing anywhere; otherwise it always invokes directory creation on the
full user directory and, if the log file opens, appends exactly one
line `[<unix-timestamp>] <message>` to `startup.log` (timestamp
defaulting to 0 on clock failure), while the result never depends on
whether the write itself succeeded. -/
theorem log_to_file_behavior (w : LogWorld) (msg : String) :
    (w.user_dir = none →
      log_to_file w msg = { created_dir := none, appended := none }) ∧
    (∀ dir, w.user_dir = some dir →
      (log_to_file w msg).created_dir = some dir ∧
      (log_to_file w msg).appended =
        (if w.open_ok then
          some (dir ++ ["startup.log"],
            "[" ++ toString (w.now_secs.getD 0) ++ "] " ++ msg)
         else none)) ∧
    ∀ b1 b2 : Bool,
      log_to_file { w with write_ok := b1 } msg
        = log_to_file { w with write_ok := b2 } msg := by
  refine ⟨?_, ?_, fun b1 b2 => rfl⟩
  · intro h
    simp [log_to_file, h]
  · intro dir h
    constructor <;> simp [log_to_file, h]

/-- Witness for C10: with no user directory nothing is written; with
directory `U`, clock 5 and a successful open, the line `[5] m` is
appended to `U/startup.log`. -/
theorem log_to_file_behavior_witness :
    log_to_file
      { user_dir := none, now_secs := some 5, open_ok := true, write_ok := true }
      "m" = { created_dir := none, appended := none } ∧
    (log_to_file
      { user_dir := some ["U"], now_secs := some 5, open_ok := true,
        write_ok := true } "m").appended
      = some (["U", "startup.log"], "[5] m") := by
  refine ⟨(log_to_file_behavior _ "m").1 rfl, ?_⟩
  have h := ((log_to_file_behavior
    { user_dir := some ["U"], now_secs := some 5, open_ok := true,
      write_ok := true } "m").2.1 ["U"] rfl).2
  rw [h]
  rfl

end Leaxer
